import Mathlib

/-!
# Verification of the game-session orchestration layer

A shallow embedding, in Lean 4, of the session/undo/save/scene logic of a
small physics-puzzle game (player pushes a block to a goal, collects a key,
unlocks a door, teleports between two rooms).  Pure data and control flow are
translated from the JavaScript source; the physics engine, rendering, DOM and
timers are modelled as oracle inputs per tick.  JavaScript numbers are
modelled as rationals; square-root distance comparisons `sqrt m < t` are
modelled as `m < t^2`, which is equivalent for nonnegative radicands.
-/

/-- A 3-component vector of rationals, modelling a world position or
velocity (`{x, y, z}` objects in the source). -/
structure V3 where
  x : ℚ
  y : ℚ
  z : ℚ
deriving DecidableEq, Repr

/-- The zero vector, used where the source writes `{ x: 0, y: 0, z: 0 }`. -/
def v3zero : V3 := ⟨0, 0, 0⟩

/-- Squared Euclidean distance between two points.  The source computes
`Math.sqrt(dx*dx + dy*dy + dz*dz)` and compares it with a threshold `t`;
we compare the squared distance with `t*t` instead. -/
def distSq (a b : V3) : ℚ :=
  (a.x - b.x) * (a.x - b.x) + (a.y - b.y) * (a.y - b.y) + (a.z - b.z) * (a.z - b.z)

/-- Inventory item kinds.  The source stores item type strings; the only
type ever added is the key, so we model the string `'key'` as `Item.key`
and any other string as `Item.misc`. -/
inductive Item where
  | key
  | misc
deriving DecidableEq, Repr

/-- State of the `InventoryUI` singleton (`src/src/inventory.js`, the
revision with item tracking): five DOM slots, each either empty or holding
an item icon, plus the `items` array recording item types in insertion
order (most recent last, as with JS `push`). -/
structure InventoryState where
  slots : List (Option Item)
  items : List Item
deriving DecidableEq, Repr

/-- The inventory as constructed: `maxSlots = 5` empty slots, no items. -/
def initInventory : InventoryState :=
  { slots := List.replicate 5 none, items := [] }

/-- Index of the first empty slot, modelling
`this.slots.find(slot => !slot.hasChildNodes())`. -/
def firstEmptyIdx : List (Option Item) → Option Nat
  | [] => none
  | none :: _ => some 0
  | some _ :: rest => (firstEmptyIdx rest).map (· + 1)

/-- Number of empty slots. -/
def countNone (l : List (Option Item)) : Nat :=
  l.countP (·.isNone)

/-- `InventoryUI.addItem(type)`: find the first empty slot; if none exists,
return unchanged (silent no-op); otherwise record the item type and place
an icon in that slot. -/
def addItem (inv : InventoryState) (t : Item) : InventoryState :=
  match firstEmptyIdx inv.slots with
  | none => inv
  | some i => { slots := inv.slots.set i (some t), items := inv.items ++ [t] }

/-- `InventoryUI.hasItem(type)`: `this.items.includes(type)`. -/
def hasItem (inv : InventoryState) (t : Item) : Bool :=
  inv.items.contains t

/-- Remove the last (most recently added) occurrence of `t` from a list;
the list is unchanged when `t` does not occur. -/
def removeLastOcc : List Item → Item → List Item
  | [], _ => []
  | x :: xs, t =>
    if t ∈ xs then x :: removeLastOcc xs t
    else if x = t then xs else x :: xs

/-- Modelled from the spec: `inventory.removeLastItem('key')` is invoked by
`undoLastAction` in `src/src/main.js` but no `removeLastItem` method is
defined in any source file under src.  The spec states the inverse of a
`KeyPickup` must "remove exactly one key item from inventory (removing the
most-recently-added matching item, not an arbitrary one)", so we model it
as removing the last occurrence of the item type from the `items` list. -/
def removeLastItem (inv : InventoryState) (t : Item) : InventoryState :=
  { inv with items := removeLastOcc inv.items t }

/-- Fold a sequence of `addItem` calls over an inventory. -/
def applyAddItems (inv : InventoryState) (ts : List Item) : InventoryState :=
  ts.foldl addItem inv

/- ### Physics-configuration DSL loader (`src/src/dsl/loader.js`) -/

/-- A player section of a parsed physics-config JSON object.  Each field is
`some q` when the JS value is a number that is not `NaN`, and `none` when
the field is missing, non-numeric, or `NaN` (the source rejects all three
via `typeof !== 'number' || isNaN`). -/
structure PlayerConfigJson where
  friction : Option ℚ
  minForce : Option ℚ
  maxForce : Option ℚ
  linearDamping : Option ℚ
  angularDamping : Option ℚ
deriving DecidableEq, Repr

/-- A block section of a parsed physics-config JSON object. -/
structure BlockConfigJson where
  linearDamping : Option ℚ
  angularDamping : Option ℚ
  friction : Option ℚ
  density : Option ℚ
deriving DecidableEq, Repr

/-- A parsed physics-config JSON object; `player`/`block` are `none` when
the corresponding property is absent or not an object. -/
structure ConfigJson where
  player : Option PlayerConfigJson
  block : Option BlockConfigJson
deriving DecidableEq, Repr

/-- Fully-validated player physics parameters (all numeric). -/
structure PlayerConfig where
  friction : ℚ
  minForce : ℚ
  maxForce : ℚ
  linearDamping : ℚ
  angularDamping : ℚ
deriving DecidableEq, Repr

/-- Fully-validated block physics parameters. -/
structure BlockConfig where
  linearDamping : ℚ
  angularDamping : ℚ
  friction : ℚ
  density : ℚ
deriving DecidableEq, Repr

/-- A complete physics configuration. -/
structure PhysicsConfig where
  player : PlayerConfig
  block : BlockConfig
deriving DecidableEq, Repr

/-- `DEFAULT_CONFIG` from `src/src/dsl/loader.js`. -/
def DEFAULT_CONFIG : PhysicsConfig :=
  { player := { friction := 0.75, minForce := 1.0, maxForce := 3.0,
                linearDamping := 0.3, angularDamping := 0.8 },
    block := { linearDamping := 0.2, angularDamping := 0.3,
               friction := 0.3, density := 0.5 } }

/-- `validatePlayerConfig`: all five fields numeric, then the range checks
`friction < 0 || friction > 1`, `minForce <= 0`,
`maxForce <= 0 || maxForce < minForce`, `linearDamping < 0`,
`angularDamping < 0` each cause rejection. -/
def validatePlayerConfig : Option PlayerConfigJson → Bool
  | none => false
  | some c =>
    match c.friction, c.minForce, c.maxForce, c.linearDamping, c.angularDamping with
    | some f, some mn, some mx, some ld, some ad =>
      if f < 0 ∨ f > 1 then false
      else if mn ≤ 0 then false
      else if mx ≤ 0 ∨ mx < mn then false
      else if ld < 0 then false
      else if ad < 0 then false
      else true
    | _, _, _, _, _ => false

/-- `validateBlockConfig`: all four fields numeric, then range checks. -/
def validateBlockConfig : Option BlockConfigJson → Bool
  | none => false
  | some c =>
    match c.linearDamping, c.angularDamping, c.friction, c.density with
    | some ld, some ad, some f, some d =>
      if ld < 0 then false
      else if ad < 0 then false
      else if f < 0 ∨ f > 1 then false
      else if d ≤ 0 then false
      else true
    | _, _, _, _ => false

/-- `validateConfig`: the object exists and both sections validate. -/
def validateConfig (cfg : ConfigJson) : Bool :=
  validatePlayerConfig cfg.player && validateBlockConfig cfg.block

/-- Extract the parsed values from a config that passed validation (the
`getD 0` defaults are unreachable: validation guarantees every field is
present). -/
def extractConfig (cfg : ConfigJson) : PhysicsConfig :=
  match cfg.player, cfg.block with
  | some p, some b =>
    { player := { friction := p.friction.getD 0, minForce := p.minForce.getD 0,
                  maxForce := p.maxForce.getD 0, linearDamping := p.linearDamping.getD 0,
                  angularDamping := p.angularDamping.getD 0 },
      block := { linearDamping := b.linearDamping.getD 0,
                 angularDamping := b.angularDamping.getD 0,
                 friction := b.friction.getD 0, density := b.density.getD 0 } }
  | _, _ => DEFAULT_CONFIG

/-- `loadPhysicsConfig`: the input is `none` when the dynamic import of the
JSON file threw (missing file or parse failure), and `some cfg` when it
yielded a parsed object.  A valid object is returned as parsed; anything
else yields the complete built-in default object. -/
def loadPhysicsConfig (input : Option ConfigJson) : PhysicsConfig :=
  match input with
  | none => DEFAULT_CONFIG
  | some cfg => if validateConfig cfg then extractConfig cfg else DEFAULT_CONFIG

/-- The documented validation rules, stated directly from the spec:
all fields numeric, `friction ∈ [0,1]`, `minForce > 0`,
`maxForce > 0 ∧ maxForce ≥ minForce`, damping values `≥ 0`, `density > 0`. -/
def specValidConfig (cfg : ConfigJson) : Prop :=
  ∃ p b, cfg.player = some p ∧ cfg.block = some b ∧
    (∃ f mn mx ld ad, p.friction = some f ∧ p.minForce = some mn ∧
      p.maxForce = some mx ∧ p.linearDamping = some ld ∧ p.angularDamping = some ad ∧
      0 ≤ f ∧ f ≤ 1 ∧ 0 < mn ∧ 0 < mx ∧ mn ≤ mx ∧ 0 ≤ ld ∧ 0 ≤ ad) ∧
    (∃ ld ad f d, b.linearDamping = some ld ∧ b.angularDamping = some ad ∧
      b.friction = some f ∧ b.density = some d ∧
      0 ≤ ld ∧ 0 ≤ ad ∧ 0 ≤ f ∧ f ≤ 1 ∧ 0 < d)

/- ### Entity wrappers -/

/-- The player entity (`src/src/player.js`): its rigid-body pose, modelled
by translation plus linear and angular velocity. -/
structure PlayerEnt where
  pos : V3
  linvel : V3
  angvel : V3
deriving DecidableEq, Repr

/-- The pushable block entity (`src/block.js`). -/
structure BlockEnt where
  pos : V3
  linvel : V3
  angvel : V3
deriving DecidableEq, Repr

/-- Which closure is wired into a key's `onClick` field: the one attached
by the goal-check spawn in the update loop (pushes a `keyPickup` record,
adds the item, saves) or the one attached by the undo respawn (adds the
item and saves, without pushing a record). -/
inductive KeyCallbackKind where
  | spawnWiring
  | respawnWiring
deriving DecidableEq, Repr

/-- The collectible key entity (`src/src/player.js`, Key class revision
with save helpers): position, `pickedUp` flag, and the `onClick` callback
slot (`none` models a nulled callback). -/
structure KeyEnt where
  pos : V3
  pickedUp : Bool
  onClick : Option KeyCallbackKind
deriving DecidableEq, Repr

/-- The platform entity: `top = -1 + 0.5/2 = -0.75` and `halfSize = 5` as
constructed in `platform.js`. -/
structure PlatformEnt where
  top : ℚ
  halfSize : ℚ
deriving DecidableEq, Repr

/-- The goal entity: only its mesh position matters to the game logic. -/
structure GoalEnt where
  pos : V3
deriving DecidableEq, Repr

/-- The teleporter entity: its `onPlayerEnter` callback is `none` when
unwired, or `some target` when wired to load scene `target`. -/
structure TeleporterEnt where
  onPlayerEnter : Option Nat
deriving DecidableEq, Repr

/-- The locked-door state (`src/src/i18n/font-loader.js`, LockedDoor
revision with the `onWin` callback): door position, the `unlocked` and
`fadedOut` flags, the fade scalar, whether the sensor collider still
exists, and whether the one-shot `onWin` callback is still attached. -/
structure DoorState where
  pos : V3
  unlocked : Bool
  fadedOut : Bool
  fadeAmount : ℚ
  hasCollider : Bool
  onWin : Bool
deriving DecidableEq, Repr

/-- An undoable action record (`actionHistory` entries in
`src/src/main.js`): a `move` with the player's pre-move position, the
block's pre-move position when a block existed, and whether the key was
already spawned; or a `keyPickup` with the key's world position. -/
inductive ActionRecord where
  | move (previousPosition : V3) (previousBlockPosition : Option V3)
      (keyWasSpawned : Bool)
  | keyPickup (keyPosition : V3)
deriving DecidableEq, Repr

/-- The whole mutable session state of `src/src/main.js`: the module-level
variables (`world`, `gameOver`, `keySpawned`, `currentScene`, `moveCount`,
`actionHistory`), the `physicsObjects` record, and the inventory
singleton.  `actionHistory` is a JS array pushed/popped at its end; we
keep the same order (most recent record last).  `loadsScheduled` and
`goalSpawnCount` are proof instrumentation: they count `loadScene`
invocations and goal-check key spawns and have no behavioural effect. -/
structure Session where
  world : Bool
  gameOver : Bool
  keySpawned : Bool
  currentScene : Nat
  moveCount : Int
  actionHistory : List ActionRecord
  inventory : InventoryState
  platform : Option PlatformEnt
  player : Option PlayerEnt
  block : Option BlockEnt
  goal : Option GoalEnt
  key : Option KeyEnt
  teleporter : Option TeleporterEnt
  lockedDoor : Option DoorState
  loadsScheduled : Nat
  goalSpawnCount : Nat
deriving DecidableEq, Repr

/- ### Boundary and proximity predicates -/

/-- `Player.isOffPlatform(platformHalfSize)`: true when the x or z
coordinate is strictly outside `[-halfSize, halfSize]`. -/
def playerIsOffPlatform (p : PlayerEnt) (halfSize : ℚ) : Bool :=
  p.pos.x < -halfSize ∨ p.pos.x > halfSize ∨ p.pos.z < -halfSize ∨ p.pos.z > halfSize

/-- `Block.isOffPlatform(platformHalfSize)`: same strict boundary test. -/
def blockIsOffPlatform (b : BlockEnt) (halfSize : ℚ) : Bool :=
  b.pos.x < -halfSize ∨ b.pos.x > halfSize ∨ b.pos.z < -halfSize ∨ b.pos.z > halfSize

/-- `Block.isAtGoal(goalMesh, threshold = 0.8)`: Euclidean distance to the
goal mesh position strictly below the threshold, compared on squares. -/
def blockIsAtGoal (b : BlockEnt) (g : GoalEnt) : Bool :=
  distSq b.pos g.pos < 0.8 * 0.8

/-- `checkBlockGoal(physicsObjects)` from `src/src/utils.js`:
`block?.isAtGoal(goal?.mesh) ?? false` (false when block or goal is
absent). -/
def checkBlockGoal (s : Session) : Bool :=
  match s.block, s.goal with
  | some b, some g => blockIsAtGoal b g
  | _, _ => false

/-- `isGameOver(physicsObjects, message)` from `src/src/utils.js`: false
when the platform is absent or its `halfSize` is falsy (the source tests
`if (!platformHalfSize)`, so a zero half-size also bails out); otherwise
true iff the block or the player is off the platform. -/
def isGameOver (s : Session) : Bool :=
  match s.platform with
  | none => false
  | some pf =>
    if pf.halfSize = 0 then false
    else
      (match s.block with | some b => blockIsOffPlatform b pf.halfSize | none => false) ||
      (match s.player with | some p => playerIsOffPlatform p pf.halfSize | none => false)

/- ### Locked-door state machine (`LockedDoor.update`) -/

/-- Per-tick oracle inputs for `LockedDoor.update`: the result of the
sensor-intersection query between door and player colliders, whether the
inventory holds a key (`playerHasKey()`), and the player body's current
translation (`none` when no player body exists). -/
structure DoorInput where
  sensorTouching : Bool
  hasKeyNow : Bool
  playerPos : Option V3
deriving DecidableEq, Repr

/-- The distance-fallback proximity test used once the collider is gone:
`dist < 1.2`, compared on squares. -/
def doorClose (d : DoorState) (inp : DoorInput) : Bool :=
  match inp.playerPos with
  | some p => distSq p d.pos < 1.2 * 1.2
  | none => false

/-- One call of `LockedDoor.update()` (the revision with `onWin`): unlock
when touched with a key in inventory; while unlocked and not faded, step
the fade by 0.02 and, at zero, remove the collider; once faded, fire the
one-shot `onWin` callback on overlap — via the sensor if a collider still
exists, else via the 1.2-unit distance fallback — and null it.  Returns
the new state and whether `onWin` fired this tick. -/
def doorUpdate (d : DoorState) (inp : DoorInput) : DoorState × Bool :=
  let d1 :=
    if !d.unlocked && inp.sensorTouching && inp.hasKeyNow then
      { d with unlocked := true }
    else d
  let d2 :=
    if d1.unlocked && !d1.fadedOut then
      let fa := d1.fadeAmount - 0.02
      if fa ≤ 0 then { d1 with fadeAmount := fa, fadedOut := true, hasCollider := false }
      else { d1 with fadeAmount := fa }
    else d1
  if d2.fadedOut then
    let touching :=
      if d2.hasCollider then inp.sensorTouching
      else doorClose d2 inp
    if touching && d2.onWin then ({ d2 with onWin := false }, true)
    else (d2, false)
  else (d2, false)

/-- Run `LockedDoor.update` over a list of tick inputs, collecting the
per-tick `onWin` firing flags. -/
def runDoor (d : DoorState) : List DoorInput → DoorState × List Bool
  | [] => (d, [])
  | i :: is =>
    let r1 := doorUpdate d i
    let r2 := runDoor r1.1 is
    (r2.1, r1.2 :: r2.2)

/-- Keep only the first `true` of a boolean sequence (the shape of a
correctly one-shot event stream). -/
def markFirst : List Bool → List Bool
  | [] => []
  | b :: bs => if b then true :: bs.map (fun _ => false) else false :: markFirst bs

/- ### Scene state machine (`clearScene` / `loadScene` in `src/src/main.js`) -/

/-- `clearScene()`: reset every `physicsObjects` entry to null (the reset
object literal has no `lockedDoor` property, so the door is dropped too),
clear `keySpawned` and `gameOver`, and clear the action history.
`world` and `moveCount` are untouched. -/
def clearScene (s : Session) : Session :=
  { s with platform := none, block := none, player := none, goal := none,
           key := none, teleporter := none, lockedDoor := none,
           keySpawned := false, gameOver := false, actionHistory := [] }

/-- `gameOver = true`, as performed by a teleporter's `onPlayerEnter`
callback immediately before it calls `loadScene`. -/
def markSessionOver (s : Session) : Session :=
  { s with gameOver := true }

/-- The synchronous prefix of `loadScene(sceneNumber)`: `clearScene()`,
set `currentScene`, and schedule the asynchronous scene build (counted by
the `loadsScheduled` instrumentation; the build itself completes later,
modelled by `buildScene`). -/
def loadSceneStart (sceneNumber : Nat) (s : Session) : Session :=
  let s1 := clearScene s
  { s1 with currentScene := sceneNumber, loadsScheduled := s1.loadsScheduled + 1 }

/-- The platform as constructed by `new Platform(world, scene)`:
mesh at y = -1, height 0.5, so `top = -0.75`; `halfSize = 5`. -/
def freshPlatform : PlatformEnt := { top := -0.75, halfSize := 5 }

/-- Completion of the asynchronous entity construction of
`loadScene1`/`loadScene2` (after the physics configs resolve): scene 1
builds platform, block, goal, a teleporter wired to scene 2, and the
player; scene 2 builds platform, a teleporter wired to scene 1, the
player at `(0, top+0.3, -2)`, and the locked door at `(-4, top, 3)` with
its `onWin` callback wired.  Any other scene number builds nothing. -/
def buildScene (sceneNumber : Nat) (s : Session) : Session :=
  let top := freshPlatform.top
  match sceneNumber with
  | 1 =>
    { s with platform := some freshPlatform,
             block := some { pos := ⟨0, top + 0.5, 0⟩, linvel := v3zero, angvel := v3zero },
             goal := some { pos := ⟨3, top + 0.05, -2⟩ },
             teleporter := some { onPlayerEnter := some 2 },
             player := some { pos := ⟨0, top + 0.3, 2⟩, linvel := v3zero, angvel := v3zero } }
  | 2 =>
    { s with platform := some freshPlatform,
             teleporter := some { onPlayerEnter := some 1 },
             player := some { pos := ⟨0, top + 0.3, -2⟩, linvel := v3zero, angvel := v3zero },
             lockedDoor := some { pos := ⟨-4, top, 3⟩, unlocked := false, fadedOut := false,
                                  fadeAmount := 1, hasCollider := true, onWin := true } }
  | _ => s

/-- A fully completed `loadScene(n)` (used on the load path, where the
transition finishes before the restore callback runs). -/
def loadSceneFull (sceneNumber : Nat) (s : Session) : Session :=
  buildScene sceneNumber (loadSceneStart sceneNumber s)

/- ### Session loop (`update` in `src/src/main.js`) -/

/-- Per-tick oracle inputs to the update loop: the player and block poses
produced by `world.step()`, the teleporter sensor-overlap query result,
and the door sensor-overlap query result. -/
structure TickInput where
  playerPos : V3
  blockPos : V3
  teleporterOverlap : Bool
  doorSensorOverlap : Bool
deriving DecidableEq, Repr

/-- Copy the post-step physics poses onto the session's movable entities
(`world.step()`; the subsequent `updateVisual` calls are render-only). -/
def applyStep (s : Session) (inp : TickInput) : Session :=
  let s1 :=
    match s.player with
    | some p => { s with player := some { p with pos := inp.playerPos } }
    | none => s
  match s1.block with
  | some b => { s1 with block := some { b with pos := inp.blockPos } }
  | none => s1

/-- `physicsObjects.lockedDoor?.update?.()`: run the door state machine
when a door exists, feeding it the sensor query, the inventory key query
(`playerHasKey()` resolves through `inventory.hasItem('key')`), and the
player's position.  The `onWin` firing only shows the win screen, which is
presentation-only, so the fired flag is dropped here. -/
def doorTick (s : Session) (inp : TickInput) : Session :=
  match s.lockedDoor with
  | none => s
  | some d =>
    let inp' : DoorInput :=
      { sensorTouching := inp.doorSensorOverlap && s.player.isSome,
        hasKeyNow := hasItem s.inventory Item.key,
        playerPos := s.player.map (·.pos) }
    { s with lockedDoor := some (doorUpdate d inp').1 }

/-- The block-at-goal check of the update loop: when `checkBlockGoal` holds
and `keySpawned` is not yet set, spawn one key at
`(0, platform.top + 1, 0)` with the pickup callback wired, and set
`keySpawned`.  (The source reads `physicsObjects.platform.top`
unconditionally; a true `checkBlockGoal` requires a block, which only ever
exists alongside a platform, so the guard below is unreachable-safe.) -/
def keySpawnCheck (s : Session) : Session :=
  if checkBlockGoal s && !s.keySpawned then
    match s.platform with
    | some pf =>
      { s with key := some { pos := ⟨0, pf.top + 1, 0⟩, pickedUp := false,
                             onClick := some KeyCallbackKind.spawnWiring },
               keySpawned := true, goalSpawnCount := s.goalSpawnCount + 1 }
    | none => s
  else s

/-- The teleporter check of the update loop:
`if (!gameOver && teleporter?.isPlayerTouching(world, player)) trigger()`.
`isPlayerTouching` is false without a player collider; `trigger` invokes
`onPlayerEnter` when wired, which shows a message, sets `gameOver`, and
starts `loadScene(target)` (whose synchronous prefix runs at once). -/
def teleporterCheck (s : Session) (overlap : Bool) : Session :=
  if !s.gameOver then
    match s.teleporter with
    | some t =>
      if overlap && s.player.isSome then
        match t.onPlayerEnter with
        | some target => loadSceneStart target (markSessionOver s)
        | none => s
      else s
    | none => s
  else s

/-- One frame of the Phaser `update` callback: bail out (render only) when
the world is absent or the session is over; otherwise step physics, sync
visuals, update the door, run the goal/key-spawn check, run the teleporter
check, and re-evaluate `gameOver` from the loss condition (the lose-screen
display on a fresh loss is presentation-only). -/
def tick (s : Session) (inp : TickInput) : Session :=
  if !s.world || s.gameOver then s
  else
    let s1 := applyStep s inp
    let s2 := doorTick s1 inp
    let s3 := keySpawnCheck s2
    let s4 := teleporterCheck s3 inp.teleporterOverlap
    { s4 with gameOver := isGameOver s4 }

/-- Run the update loop over a list of tick inputs. -/
def runTicks (s : Session) : List TickInput → Session
  | [] => s
  | i :: is => runTicks (tick s i) is

/- ### Save/load store (`saveGame` / `loadGame` in `src/src/main.js`) -/

/-- The persisted snapshot written to `localStorage['myGameSave']`.  When
re-read from storage the fields may be absent, hence the `Option`s; the
key entry is the `pickedUp` boolean of the saved `{ pickedUp: b }` object
(an object is always truthy in the source's `data.key` guard). -/
structure SaveData where
  scene : Nat
  playerData : Option V3
  blockData : Option V3
  keyData : Option Bool
  moveCount : Int
  actionHistory : List ActionRecord
deriving DecidableEq, Repr

/-- `saveGame()`: bail out when no player exists; otherwise snapshot the
scene id, the player position, the block position (or null), the key state
(`{ pickedUp: true }` when no key entity exists), the move count, and the
action history. -/
def saveGame (s : Session) : Option SaveData :=
  match s.player with
  | none => none
  | some p =>
    some { scene := s.currentScene,
           playerData := some p.pos,
           blockData := s.block.map (·.pos),
           keyData := some (match s.key with | some k => k.pickedUp | none => true),
           moveCount := s.moveCount,
           actionHistory := s.actionHistory }

/-- `data.scene || 1`: a falsy (zero) scene id falls back to 1. -/
def jsSceneOr1 (n : Nat) : Nat :=
  if n = 0 then 1 else n

/-- The body of `loadGame` once data has parsed, composed with the
completed scene load and the `.then` restore callback: set `currentScene`,
`moveCount` (`data.moveCount || 0` is the identity on integers), and
`actionHistory` from the snapshot; run `loadScene(currentScene)` — whose
`clearScene` resets `actionHistory` to `[]` — and then re-apply the saved
player, block, and key state onto whichever of those entities the fresh
scene has (the fresh scenes never spawn a key, so the key branch is dead
on this path). -/
def applyLoadedData (d : SaveData) (s : Session) : Session :=
  let s1 := { s with currentScene := jsSceneOr1 d.scene,
                     moveCount := d.moveCount,
                     actionHistory := d.actionHistory }
  let s2 := loadSceneFull s1.currentScene s1
  let s3 :=
    match s2.player, d.playerData with
    | some p, some pd => { s2 with player := some { p with pos := pd } }
    | _, _ => s2
  let s4 :=
    match s3.block, d.blockData with
    | some b, some bd => { s3 with block := some { b with pos := bd } }
    | _, _ => s3
  match s4.key, d.keyData with
  | some k, some kp =>
    if kp then { s4 with key := some { k with pickedUp := true } } else s4
  | _, _ => s4

/-- The content found in the persisted save slot at load time: no record,
a record that is not syntactically valid JSON, a record that parses to a
falsy value (`null`, `0`, `false`, the empty string), or a parsed
snapshot. -/
inductive SlotContent where
  | absent
  | malformed
  | parsedFalsy
  | parsed (d : SaveData)
deriving DecidableEq, Repr

/-- `loadGame()` as written: return early when no record exists or it
parses falsy; THROW (modelled by `Except.error`) when `JSON.parse` fails
on malformed JSON — `loadGame` itself has no try/catch; otherwise restore
from the parsed snapshot. -/
def loadGameExc (slot : SlotContent) (s : Session) : Except Unit Session :=
  match slot with
  | SlotContent.absent => Except.ok s
  | SlotContent.malformed => Except.error ()
  | SlotContent.parsedFalsy => Except.ok s
  | SlotContent.parsed d => Except.ok (applyLoadedData d s)

/-- The load path as the user experiences it: `create()` invokes
`loadGame()` inside a try/catch whose handler just renders, so a throw
leaves the freshly initialized session unchanged. -/
def createLoadPath (slot : SlotContent) (s : Session) : Session :=
  match loadGameExc slot s with
  | Except.ok s' => s'
  | Except.error _ => s

/- ### Action history / undo engine -/

/-- `trackMoveAction(previousPosition)`: push a move record capturing the
block's current position (when a block exists) and the current
`keySpawned` flag. -/
def trackMoveAction (s : Session) (previousPosition : V3) : Session :=
  { s with actionHistory :=
      s.actionHistory ++
        [ActionRecord.move previousPosition (s.block.map (·.pos)) s.keySpawned] }

/-- `undoLastAction()`: no-op on empty history; otherwise pop the most
recent record.  For a move: restore the player's position and zero its
velocities; restore the block likewise when a block position was recorded;
despawn the key when it was spawned during this move; decrement
`moveCount` with a floor of 0.  For a key pickup: remove the
most-recently-added key item from the inventory and, when no key entity
exists, respawn one at the recorded position with a pickup callback
rewired and `keySpawned` set.  (The trailing `saveGame()` persists state
and is not itself state-changing.) -/
def undoLastAction (s : Session) : Session :=
  match s.actionHistory.getLast? with
  | none => s
  | some act =>
    let s0 := { s with actionHistory := s.actionHistory.dropLast }
    match act with
    | ActionRecord.move prevPos prevBlockPos keyWasSpawned =>
      match s0.player with
      | none => s0
      | some p =>
        let s1 := { s0 with
          player := some { p with pos := prevPos, linvel := v3zero, angvel := v3zero } }
        let s2 :=
          match s1.block, prevBlockPos with
          | some b, some bp =>
            { s1 with block := some { b with pos := bp, linvel := v3zero, angvel := v3zero } }
          | _, _ => s1
        let s3 :=
          if s2.keySpawned && !keyWasSpawned then
            { s2 with key := none, keySpawned := false }
          else s2
        { s3 with moveCount := max 0 (s3.moveCount - 1) }
    | ActionRecord.keyPickup kpos =>
      let s1 := { s0 with inventory := removeLastItem s0.inventory Item.key }
      match s1.key with
      | some _ => s1
      | none =>
        { s1 with
          key := some { pos := kpos, pickedUp := false,
                        onClick := some KeyCallbackKind.respawnWiring },
          keySpawned := true }

/- ### Concrete states used to exercise the theorems -/

/-- A bare session before any scene has been built: physics world ready,
nothing spawned, fresh inventory. -/
def initSession : Session :=
  { world := true, gameOver := false, keySpawned := false, currentScene := 1,
    moveCount := 0, actionHistory := [], inventory := initInventory,
    platform := none, player := none, block := none, goal := none, key := none,
    teleporter := none, lockedDoor := none, loadsScheduled := 0, goalSpawnCount := 0 }

/-- The session right after startup (`initPhysics` has run `loadScene1`). -/
def freshScene1 : Session :=
  loadSceneFull 1 initSession

/-- An inventory whose five slots are all occupied. -/
def fullInventory : InventoryState :=
  applyAddItems initInventory
    [Item.key, Item.misc, Item.misc, Item.misc, Item.misc]

/-- A physics-config JSON object satisfying every validation rule. -/
def goodCfg : ConfigJson :=
  { player := some { friction := some 1, minForce := some 1, maxForce := some 2,
                     linearDamping := some 0, angularDamping := some 0 },
    block := some { linearDamping := some 0, angularDamping := some 0,
                    friction := some 1, density := some 1 } }

/-- A door in the OPEN state: unlocked, faded out, collider removed,
one-shot win callback still attached; positioned at the origin. -/
def openDoor : DoorState :=
  { pos := ⟨0, 0, 0⟩, unlocked := true, fadedOut := true, fadeAmount := 0,
    hasCollider := false, onWin := true }

/-- Door inputs: the player far from the door, then twice within 1.2 units. -/
def doorRunInputs : List DoorInput :=
  [ { sensorTouching := false, hasKeyNow := false, playerPos := some ⟨5, 0, 0⟩ },
    { sensorTouching := false, hasKeyNow := false, playerPos := some ⟨0.5, 0, 0⟩ },
    { sensorTouching := false, hasKeyNow := false, playerPos := some ⟨0.5, 0, 0⟩ } ]

/-- A tick input with the block sitting on the goal and no sensor overlaps. -/
def blockAtGoalInput : TickInput :=
  { playerPos := ⟨0, -0.45, 2⟩, blockPos := ⟨3, -0.7, -2⟩,
    teleporterOverlap := false, doorSensorOverlap := false }

/-- A tick input with the player overlapping the teleporter. -/
def teleportInput : TickInput :=
  { playerPos := ⟨-4, -0.45, -4⟩, blockPos := ⟨0, -0.25, 0⟩,
    teleporterOverlap := true, doorSensorOverlap := false }

/-- A session whose most recent action record is a key pickup, with the
key item in the inventory and the key entity gone (picked up). -/
def pickupSession : Session :=
  { freshScene1 with
      keySpawned := true, key := none,
      inventory := addItem initInventory Item.key,
      actionHistory := [ActionRecord.keyPickup ⟨0, 0.25, 0⟩],
      moveCount := 3 }

/-- A session whose most recent action record is a move that spawned the
key (the key entity is present, `keySpawned` is set, and the record notes
it was not spawned before the move). -/
def moveSession : Session :=
  { freshScene1 with
      keySpawned := true,
      key := some { pos := ⟨0, 0.25, 0⟩, pickedUp := false,
                    onClick := some KeyCallbackKind.spawnWiring },
      actionHistory :=
        [ActionRecord.keyPickup ⟨0, 0.25, 0⟩,
         ActionRecord.move ⟨1, -0.45, 1⟩ (some ⟨2, -0.25, -1⟩) false],
      moveCount := 2 }

/-- A session carrying one move record and a nonzero move count, used to
exercise the save/load round trip. -/
def historySession : Session :=
  { freshScene1 with
      actionHistory := [ActionRecord.move ⟨0, -0.45, 2⟩ (some ⟨0, -0.25, 0⟩) false],
      moveCount := 1 }

/- ### Helper lemmas -/

theorem firstEmptyIdx_none_of_all_some :
    ∀ l : List (Option Item), l.all Option.isSome = true → firstEmptyIdx l = none := by
  intro l hl
  induction l with
  | nil => rfl
  | cons x xs ih =>
    cases x with
    | none => simp at hl
    | some a =>
      simp only [List.all_cons, Bool.and_eq_true] at hl
      simp [firstEmptyIdx, ih hl.2]

theorem firstEmptyIdx_countNone :
    ∀ (l : List (Option Item)) (i : Nat) (t : Item),
      firstEmptyIdx l = some i → countNone (l.set i (some t)) + 1 = countNone l := by
  intro l
  induction l with
  | nil => intro i t h; simp [firstEmptyIdx] at h
  | cons x xs ih =>
    intro i t h
    cases x with
    | none =>
      simp only [firstEmptyIdx, Option.some.injEq] at h
      subst h
      simp [countNone, List.countP_cons]
    | some a =>
      simp only [firstEmptyIdx, Option.map_eq_some'] at h
      obtain ⟨j, hj, hji⟩ := h
      subst hji
      have := ih j t hj
      simp only [countNone, List.countP_cons] at this ⊢
      simp only [List.set_cons_succ, List.countP_cons]
      omega

theorem addItem_slot_item_invariant (inv : InventoryState) (t : Item) :
    (addItem inv t).items.length + countNone (addItem inv t).slots =
      inv.items.length + countNone inv.slots := by
  cases h : firstEmptyIdx inv.slots with
  | none => simp [addItem, h]
  | some i =>
    have hc := firstEmptyIdx_countNone inv.slots i t h
    simp only [addItem, h, List.length_append, List.length_cons, List.length_nil]
    omega

theorem applyAddItems_slot_item_invariant :
    ∀ (ts : List Item) (inv : InventoryState),
      (applyAddItems inv ts).items.length + countNone (applyAddItems inv ts).slots =
        inv.items.length + countNone inv.slots := by
  intro ts
  induction ts with
  | nil => intro inv; rfl
  | cons t ts ih =>
    intro inv
    have h1 := addItem_slot_item_invariant inv t
    have h2 := ih (addItem inv t)
    simp only [applyAddItems, List.foldl_cons] at h2 ⊢
    omega

theorem removeLastOcc_decomp :
    ∀ (l : List Item) (t : Item), t ∈ l →
      ∃ pre post, l = pre ++ t :: post ∧ t ∉ post ∧ removeLastOcc l t = pre ++ post := by
  intro l
  induction l with
  | nil => intro t h; simp at h
  | cons x xs ih =>
    intro t h
    by_cases hmem : t ∈ xs
    · obtain ⟨pre, post, hdec, hpost, hrem⟩ := ih t hmem
      refine ⟨x :: pre, post, by simp [hdec], hpost, ?_⟩
      simp [removeLastOcc, hmem, hrem]
    · have hx : x = t := by
        rcases List.mem_cons.mp h with h' | h'
        · exact h'.symm
        · exact absurd h' hmem
      subst hx
      exact ⟨[], xs, by simp, hmem, by simp [removeLastOcc, hmem]⟩

/- ### Claim theorems -/

/-- C7: a horizontal coordinate exactly equal to the platform half-extent
is classified "on platform": `isOffPlatform` is false exactly on the
closed interval `[-halfSize, halfSize]` in both horizontal axes, for the
player and the block alike, and the loss evaluator `isGameOver` fires only
when some present entity is strictly outside that interval. -/
theorem c7_half_extent_on_platform :
    ∀ (p : PlayerEnt) (b : BlockEnt) (h : ℚ) (s : Session),
    (playerIsOffPlatform p h = false ↔
      -h ≤ p.pos.x ∧ p.pos.x ≤ h ∧ -h ≤ p.pos.z ∧ p.pos.z ≤ h) ∧
    (blockIsOffPlatform b h = false ↔
      -h ≤ b.pos.x ∧ b.pos.x ≤ h ∧ -h ≤ b.pos.z ∧ b.pos.z ≤ h) ∧
    (isGameOver s = true ↔
      ∃ pf, s.platform = some pf ∧ pf.halfSize ≠ 0 ∧
        ((∃ b', s.block = some b' ∧ blockIsOffPlatform b' pf.halfSize = true) ∨
         (∃ p', s.player = some p' ∧ playerIsOffPlatform p' pf.halfSize = true))) := by
  intro p b h s
  refine ⟨?_, ?_, ?_⟩
  · simp [playerIsOffPlatform, not_or, not_lt]
  · simp [blockIsOffPlatform, not_or, not_lt]
  · cases hpf : s.platform with
    | none => simp [isGameOver, hpf]
    | some pf =>
      by_cases hz : pf.halfSize = 0
      · simp [isGameOver, hpf, hz]
      · cases hb : s.block <;> cases hp : s.player <;>
          simp [isGameOver, hpf, hz, hb, hp]

/-- C2: the load path never surfaces an error: an absent record, a record
that is not valid JSON (on which the raw `loadGame` throws, caught by the
`create()` handler), and a record parsing to a falsy value all leave the
freshly initialized session as-is ("no prior save"), while a parsed
snapshot restores the session. -/
theorem c2_load_never_errors :
    ∀ (s : Session) (d : SaveData),
    createLoadPath SlotContent.absent s = s ∧
    createLoadPath SlotContent.malformed s = s ∧
    createLoadPath SlotContent.parsedFalsy s = s ∧
    createLoadPath (SlotContent.parsed d) s = applyLoadedData d s ∧
    loadGameExc SlotContent.malformed s = Except.error () := by
  intro s d
  exact ⟨rfl, rfl, rfl, rfl, rfl⟩

/-- C10: the inventory never holds more than `maxSlots = 5` items across
any sequence of `addItem` calls, and `addItem` on a full inventory is a
silent no-op: nothing is stored and no slot changes. -/
theorem c10_inventory_capacity :
    (∀ ts : List Item, (applyAddItems initInventory ts).items.length ≤ 5) ∧
    (∀ (inv : InventoryState) (t : Item),
      inv.slots.all Option.isSome = true → addItem inv t = inv) := by
  constructor
  · intro ts
    have h := applyAddItems_slot_item_invariant ts initInventory
    have h0 : initInventory.items.length + countNone initInventory.slots = 5 := by decide
    omega
  · intro inv t hall
    simp [addItem, firstEmptyIdx_none_of_all_some inv.slots hall]

/-- Witness for C10 at concrete inputs: six insertions stay within five
items, and adding to a completely full inventory changes nothing. -/
theorem c10_inventory_capacity_witness :
    (applyAddItems initInventory
      [Item.key, Item.key, Item.key, Item.key, Item.key, Item.key]).items.length ≤ 5 ∧
    addItem fullInventory Item.key = fullInventory :=
  ⟨c10_inventory_capacity.1 _,
   c10_inventory_capacity.2 fullInventory Item.key (by decide)⟩

theorem if_chain_five_iff (a1 a2 a3 a4 a5 : Prop)
    [Decidable a1] [Decidable a2] [Decidable a3] [Decidable a4] [Decidable a5] :
    ((if a1 then false else if a2 then false else if a3 then false
      else if a4 then false else if a5 then false else true) = true) ↔
      (¬a1 ∧ ¬a2 ∧ ¬a3 ∧ ¬a4 ∧ ¬a5) := by
  split_ifs <;> simp_all

theorem if_chain_four_iff (a1 a2 a3 a4 : Prop)
    [Decidable a1] [Decidable a2] [Decidable a3] [Decidable a4] :
    ((if a1 then false else if a2 then false else if a3 then false
      else if a4 then false else true) = true) ↔
      (¬a1 ∧ ¬a2 ∧ ¬a3 ∧ ¬a4) := by
  split_ifs <;> simp_all

set_option maxHeartbeats 1600000 in
theorem validatePlayerConfig_iff (op : Option PlayerConfigJson) :
    validatePlayerConfig op = true ↔
      ∃ p, op = some p ∧ ∃ f mn mx ld ad,
        p.friction = some f ∧ p.minForce = some mn ∧ p.maxForce = some mx ∧
        p.linearDamping = some ld ∧ p.angularDamping = some ad ∧
        0 ≤ f ∧ f ≤ 1 ∧ 0 < mn ∧ 0 < mx ∧ mn ≤ mx ∧ 0 ≤ ld ∧ 0 ≤ ad := by
  cases op with
  | none => simp [validatePlayerConfig]
  | some c =>
    obtain ⟨f, mn, mx, ld, ad⟩ := c
    cases f <;> cases mn <;> cases mx <;> cases ld <;> cases ad <;>
      simp [validatePlayerConfig, if_chain_five_iff, not_or, not_lt, not_le] <;>
      try tauto

set_option maxHeartbeats 1600000 in
theorem validateBlockConfig_iff (ob : Option BlockConfigJson) :
    validateBlockConfig ob = true ↔
      ∃ b, ob = some b ∧ ∃ ld ad f d,
        b.linearDamping = some ld ∧ b.angularDamping = some ad ∧
        b.friction = some f ∧ b.density = some d ∧
        0 ≤ ld ∧ 0 ≤ ad ∧ 0 ≤ f ∧ f ≤ 1 ∧ 0 < d := by
  cases ob with
  | none => simp [validateBlockConfig]
  | some c =>
    obtain ⟨ld, ad, f, d⟩ := c
    cases ld <;> cases ad <;> cases f <;> cases d <;>
      simp [validateBlockConfig, if_chain_four_iff, not_or, not_lt, not_le] <;>
      try tauto

theorem validateConfig_iff_spec (cfg : ConfigJson) :
    validateConfig cfg = true ↔ specValidConfig cfg := by
  unfold validateConfig specValidConfig
  rw [Bool.and_eq_true, validatePlayerConfig_iff, validateBlockConfig_iff]
  constructor
  · rintro ⟨⟨p, hp, Hp⟩, ⟨b, hb, Hb⟩⟩
    exact ⟨p, b, hp, hb, Hp, Hb⟩
  · rintro ⟨p, b, hp, hb, Hp, Hb⟩
    exact ⟨⟨p, hp, Hp⟩, ⟨b, hb, Hb⟩⟩

/-- C3: the physics-config loader returns exactly the parsed values on a
config satisfying the documented validation rules (stated independently as
`specValidConfig`), and the complete built-in default object on a missing
file, parse failure, or any validation failure — never a partial mix. -/
theorem c3_loader_exact_or_defaults (input : Option ConfigJson) :
    loadPhysicsConfig none = DEFAULT_CONFIG ∧
    (∀ cfg, input = some cfg →
      (validateConfig cfg = true → loadPhysicsConfig input = extractConfig cfg) ∧
      (validateConfig cfg = false → loadPhysicsConfig input = DEFAULT_CONFIG) ∧
      (validateConfig cfg = true ↔ specValidConfig cfg)) ∧
    (loadPhysicsConfig input = DEFAULT_CONFIG ∨
      ∃ cfg, input = some cfg ∧ validateConfig cfg = true ∧
        loadPhysicsConfig input = extractConfig cfg) := by
  refine ⟨rfl, ?_, ?_⟩
  · rintro cfg rfl
    refine ⟨?_, ?_, validateConfig_iff_spec cfg⟩
    · intro hv
      simp [loadPhysicsConfig, hv]
    · intro hv
      simp [loadPhysicsConfig, hv]
  · cases input with
    | none => exact Or.inl rfl
    | some cfg =>
      by_cases hv : validateConfig cfg = true
      · exact Or.inr ⟨cfg, rfl, hv, by simp [loadPhysicsConfig, hv]⟩
      · exact Or.inl (by simp [loadPhysicsConfig, hv])

/-- Witness for C3: the loader returns the parsed values of a concrete
valid config, and the defaults on a missing/unparsable file. -/
theorem c3_loader_exact_or_defaults_witness :
    loadPhysicsConfig (some goodCfg) = extractConfig goodCfg ∧
    loadPhysicsConfig none = DEFAULT_CONFIG :=
  ⟨((c3_loader_exact_or_defaults (some goodCfg)).2.1 goodCfg rfl).1 (by decide),
   (c3_loader_exact_or_defaults none).1⟩

/-- C1: undoing a session whose most recent record is a `KeyPickup`
removes exactly one key item — the most recently added matching one — from
the inventory (assuming the invariant that a pickup record implies the
inventory holds a key), decrements the key count by exactly one, and, when
no key entity exists, respawns exactly one key entity at the recorded
world position with a pickup callback rewired and `keySpawned` set. -/
theorem c1_undo_key_pickup (s : Session) (kpos : V3) (rest : List ActionRecord)
    (hh : s.actionHistory = rest ++ [ActionRecord.keyPickup kpos])
    (hk : hasItem s.inventory Item.key = true) :
    (∃ pre post, s.inventory.items = pre ++ Item.key :: post ∧ Item.key ∉ post ∧
        (undoLastAction s).inventory.items = pre ++ post) ∧
    ((undoLastAction s).inventory.items.count Item.key + 1 =
        s.inventory.items.count Item.key) ∧
    (s.key = none →
      (undoLastAction s).key =
          some { pos := kpos, pickedUp := false,
                 onClick := some KeyCallbackKind.respawnWiring } ∧
        (undoLastAction s).keySpawned = true) ∧
    (undoLastAction s).actionHistory = rest := by
  have hmem : Item.key ∈ s.inventory.items := by
    simpa [hasItem] using hk
  obtain ⟨pre, post, hdec, hpost, hrem⟩ :=
    removeLastOcc_decomp s.inventory.items Item.key hmem
  have hinv : (undoLastAction s).inventory.items = pre ++ post := by
    cases hkey : s.key <;>
      simp [undoLastAction, hh, List.getLast?_concat, List.dropLast_concat,
        removeLastItem, hrem, hkey]
  refine ⟨⟨pre, post, hdec, hpost, hinv⟩, ?_, ?_, ?_⟩
  · rw [hinv, hdec]
    simp [List.count_append, List.count_cons]
    omega
  · intro hkey
    constructor <;>
      simp [undoLastAction, hh, List.getLast?_concat, List.dropLast_concat,
        removeLastItem, hkey]
  · cases hkey : s.key <;>
      simp [undoLastAction, hh, List.getLast?_concat, List.dropLast_concat,
        removeLastItem, hkey]

/-- Witness for C1: undoing a concrete session whose last record is a key
pickup (key item in inventory, key entity gone). -/
theorem c1_undo_key_pickup_witness :
    (∃ pre post,
        pickupSession.inventory.items = pre ++ Item.key :: post ∧ Item.key ∉ post ∧
        (undoLastAction pickupSession).inventory.items = pre ++ post) ∧
    ((undoLastAction pickupSession).inventory.items.count Item.key + 1 =
        pickupSession.inventory.items.count Item.key) ∧
    (pickupSession.key = none →
      (undoLastAction pickupSession).key =
          some { pos := ⟨0, 0.25, 0⟩, pickedUp := false,
                 onClick := some KeyCallbackKind.respawnWiring } ∧
        (undoLastAction pickupSession).keySpawned = true) ∧
    (undoLastAction pickupSession).actionHistory = [] :=
  c1_undo_key_pickup pickupSession ⟨0, 0.25, 0⟩ [] rfl rfl

/-- C6: undoing a session whose most recent record is a `Move` restores
the player's recorded pre-move position with zeroed linear/angular
velocity; restores the block likewise when a block position was recorded;
despawns the key and clears `keySpawned` when the key was not spawned
before the move but is now (whether or not a key entity still exists);
decrements `moveCount` with a floor of 0; and pops the record. -/
theorem c6_undo_move (s : Session) (p : PlayerEnt) (prevPos : V3)
    (prevBlockPos : Option V3) (kws : Bool) (rest : List ActionRecord)
    (hh : s.actionHistory = rest ++ [ActionRecord.move prevPos prevBlockPos kws])
    (hp : s.player = some p) :
    (undoLastAction s).player =
        some { pos := prevPos, linvel := v3zero, angvel := v3zero } ∧
    (∀ b bp, s.block = some b → prevBlockPos = some bp →
      (undoLastAction s).block =
        some { pos := bp, linvel := v3zero, angvel := v3zero }) ∧
    (s.keySpawned = true → kws = false →
      (undoLastAction s).key = none ∧ (undoLastAction s).keySpawned = false) ∧
    (undoLastAction s).moveCount = max 0 (s.moveCount - 1) ∧
    (undoLastAction s).actionHistory = rest := by
  refine ⟨?_, ?_, ?_, ?_, ?_⟩
  · cases hb : s.block <;> cases hbp : prevBlockPos <;>
      by_cases hks : s.keySpawned = true <;>
        cases kws <;>
          simp [undoLastAction, hh, List.getLast?_concat, List.dropLast_concat,
            hp, hb, hbp, hks]
  · intro b bp hb hbp
    subst hbp
    by_cases hks : s.keySpawned = true <;>
      cases kws <;>
        simp [undoLastAction, hh, List.getLast?_concat, List.dropLast_concat,
          hp, hb, hks]
  · intro hks hkws
    subst hkws
    constructor <;>
      cases hb : s.block <;> cases hbp : prevBlockPos <;>
        simp [undoLastAction, hh, List.getLast?_concat, List.dropLast_concat,
          hp, hb, hbp, hks]
  · cases hb : s.block <;> cases hbp : prevBlockPos <;>
      by_cases hks : s.keySpawned = true <;>
        cases kws <;>
          simp [undoLastAction, hh, List.getLast?_concat, List.dropLast_concat,
            hp, hb, hbp, hks]
  · cases hb : s.block <;> cases hbp : prevBlockPos <;>
      by_cases hks : s.keySpawned = true <;>
        cases kws <;>
          simp [undoLastAction, hh, List.getLast?_concat, List.dropLast_concat,
            hp, hb, hbp, hks]

/-- Witness for C6: undoing a concrete session whose last record is a move
that spawned the key. -/
theorem c6_undo_move_witness :
    (undoLastAction moveSession).player =
        some { pos := ⟨1, -0.45, 1⟩, linvel := v3zero, angvel := v3zero } ∧
    (∀ b bp, moveSession.block = some b → some ⟨2, -0.25, -1⟩ = some bp →
      (undoLastAction moveSession).block =
        some { pos := bp, linvel := v3zero, angvel := v3zero }) ∧
    (moveSession.keySpawned = true → false = false →
      (undoLastAction moveSession).key = none ∧
        (undoLastAction moveSession).keySpawned = false) ∧
    (undoLastAction moveSession).moveCount = max 0 (moveSession.moveCount - 1) ∧
    (undoLastAction moveSession).actionHistory =
      [ActionRecord.keyPickup ⟨0, 0.25, 0⟩] :=
  c6_undo_move moveSession
    { pos := ⟨0, freshPlatform.top + 0.3, 2⟩, linvel := v3zero, angvel := v3zero }
    ⟨1, -0.45, 1⟩ (some ⟨2, -0.25, -1⟩) false
    [ActionRecord.keyPickup ⟨0, 0.25, 0⟩] rfl rfl

theorem doorUpdate_open_far (d : DoorState) (inp : DoorInput)
    (h1 : d.unlocked = true) (h2 : d.fadedOut = true) (h3 : d.hasCollider = false)
    (hc : doorClose d inp = false) :
    doorUpdate d inp = (d, false) := by
  simp [doorUpdate, h1, h2, h3, hc]

theorem doorUpdate_open_fire (d : DoorState) (inp : DoorInput)
    (h1 : d.unlocked = true) (h2 : d.fadedOut = true) (h3 : d.hasCollider = false)
    (h4 : d.onWin = true) (hc : doorClose d inp = true) :
    doorUpdate d inp = ({ d with onWin := false }, true) := by
  simp [doorUpdate, h1, h2, h3, h4, hc]

theorem doorUpdate_open_dead (d : DoorState) (inp : DoorInput)
    (h1 : d.unlocked = true) (h2 : d.fadedOut = true) (h4 : d.onWin = false) :
    doorUpdate d inp = (d, false) := by
  by_cases h3 : d.hasCollider = true <;>
    by_cases hs : inp.sensorTouching = true <;>
      by_cases hc : doorClose d inp = true <;>
        simp_all [doorUpdate]

theorem runDoor_open_dead (d : DoorState)
    (h1 : d.unlocked = true) (h2 : d.fadedOut = true) (h4 : d.onWin = false) :
    ∀ inps : List DoorInput, runDoor d inps = (d, inps.map (fun _ => false)) := by
  intro inps
  induction inps with
  | nil => rfl
  | cons i is ih =>
    simp [runDoor, doorUpdate_open_dead d i h1 h2 h4, ih]

/-- C4: once the locked door is OPEN (unlocked, faded out, collider
removed) with its one-shot `onWin` callback attached, a run of `update`
ticks fires the callback exactly at the first tick in which the player is
within 1.2 units of the door's position, judged by the direct
position-distance fallback `doorClose`, and at no later tick; the callback
therefore fires at most once over any run. -/
theorem c4_open_door_win_once (d : DoorState) (inps : List DoorInput)
    (h1 : d.unlocked = true) (h2 : d.fadedOut = true) (h3 : d.hasCollider = false)
    (h4 : d.onWin = true) :
    (runDoor d inps).2 = markFirst (inps.map (doorClose d)) ∧
    ((runDoor d inps).2.count true ≤ 1) := by
  have main : (runDoor d inps).2 = markFirst (inps.map (doorClose d)) := by
    induction inps with
    | nil => rfl
    | cons i is ih =>
      cases hc : doorClose d i with
      | false =>
        simp [runDoor, doorUpdate_open_far d i h1 h2 h3 hc, markFirst, hc, ih]
      | true =>
        have hdead := runDoor_open_dead { d with onWin := false } h1 h2 rfl is
        simp [runDoor, doorUpdate_open_fire d i h1 h2 h3 h4 hc, markFirst, hc,
          hdead, List.map_map, Function.comp]
  refine ⟨main, ?_⟩
  rw [main]
  generalize inps.map (doorClose d) = bs
  induction bs with
  | nil => simp [markFirst]
  | cons b bs ih =>
    cases b with
    | false => simpa [markFirst] using ih
    | true => simp [markFirst, List.count_replicate]

/-- Witness for C4: a concrete OPEN door and a far-close-close run — the
callback fires exactly at the first in-range tick. -/
theorem c4_open_door_win_once_witness :
    (runDoor openDoor doorRunInputs).2 =
        markFirst (doorRunInputs.map (doorClose openDoor)) ∧
    ((runDoor openDoor doorRunInputs).2.count true ≤ 1) :=
  c4_open_door_win_once openDoor doorRunInputs rfl rfl rfl rfl

theorem applyStep_eq (s : Session) (i : TickInput) :
    applyStep s i = { s with
      player := s.player.map (fun p => { p with pos := i.playerPos }),
      block := s.block.map (fun b => { b with pos := i.blockPos }) } := by
  obtain ⟨w, go, ks, cs, mc, ah, inv, pf, pl, bl, gl, ky, tp, ld, lds, gsc⟩ := s
  cases pl <;> cases bl <;> simp [applyStep]

theorem doorTick_eq (s : Session) (i : TickInput) :
    doorTick s i = { s with lockedDoor := s.lockedDoor.map (fun d =>
      (doorUpdate d { sensorTouching := i.doorSensorOverlap && s.player.isSome,
                      hasKeyNow := hasItem s.inventory Item.key,
                      playerPos := s.player.map (·.pos) }).1) } := by
  obtain ⟨w, go, ks, cs, mc, ah, inv, pf, pl, bl, gl, ky, tp, ld, lds, gsc⟩ := s
  cases ld <;> simp [doorTick]

theorem keySpawnCheck_pres (s : Session) :
    (keySpawnCheck s).world = s.world ∧ (keySpawnCheck s).gameOver = s.gameOver ∧
    (keySpawnCheck s).player = s.player ∧ (keySpawnCheck s).block = s.block ∧
    (keySpawnCheck s).goal = s.goal ∧ (keySpawnCheck s).teleporter = s.teleporter ∧
    (keySpawnCheck s).loadsScheduled = s.loadsScheduled ∧
    (keySpawnCheck s).inventory = s.inventory := by
  by_cases h : (checkBlockGoal s && !s.keySpawned) = true <;>
    cases hpf : s.platform <;> simp [keySpawnCheck, h, hpf]

theorem keySpawnCheck_cases (s : Session) :
    ((keySpawnCheck s).goalSpawnCount = s.goalSpawnCount ∧
      (keySpawnCheck s).keySpawned = s.keySpawned) ∨
    ((keySpawnCheck s).goalSpawnCount = s.goalSpawnCount + 1 ∧
      (keySpawnCheck s).keySpawned = true ∧ s.keySpawned = false) := by
  by_cases h : (checkBlockGoal s && !s.keySpawned) = true
  · cases hpf : s.platform with
    | none => left; simp [keySpawnCheck, h, hpf]
    | some pf =>
      right
      have hks : s.keySpawned = false := by
        have := (Bool.and_eq_true _ _).mp h
        simpa using this.2
      have hbg : checkBlockGoal s = true := ((Bool.and_eq_true _ _).mp h).1
      simp [keySpawnCheck, h, hpf, hks, hbg]
  · left; simp [keySpawnCheck, h]

theorem teleporterCheck_of_none (s : Session) (o : Bool) (ht : s.teleporter = none) :
    teleporterCheck s o = s := by
  simp [teleporterCheck, ht]

theorem teleporterCheck_no_overlap (s : Session) :
    teleporterCheck s false = s := by
  cases ht : s.teleporter <;> simp [teleporterCheck, ht]

theorem teleporterCheck_fire (s : Session) (t : TeleporterEnt) (target : Nat)
    (hg : s.gameOver = false) (ht : s.teleporter = some t)
    (hcb : t.onPlayerEnter = some target) (hp : s.player.isSome = true) :
    teleporterCheck s true = loadSceneStart target (markSessionOver s) := by
  simp [teleporterCheck, hg, ht, hcb, hp]

theorem tick_spawn_cases (s : Session) (i : TickInput)
    (hte : i.teleporterOverlap = false) :
    ((tick s i).goalSpawnCount = s.goalSpawnCount ∧
      (tick s i).keySpawned = s.keySpawned) ∨
    ((tick s i).goalSpawnCount = s.goalSpawnCount + 1 ∧
      (tick s i).keySpawned = true ∧ s.keySpawned = false) := by
  by_cases hw : (!s.world || s.gameOver) = true
  · left
    constructor <;> simp [tick, hw]
  · have htick : tick s i =
        { teleporterCheck (keySpawnCheck (doorTick (applyStep s i) i))
            i.teleporterOverlap with
          gameOver := isGameOver (teleporterCheck
            (keySpawnCheck (doorTick (applyStep s i) i)) i.teleporterOverlap) } := by
      simp [tick, hw]
    rw [hte, teleporterCheck_no_overlap] at htick
    have hg1 : (tick s i).goalSpawnCount =
        (keySpawnCheck (doorTick (applyStep s i) i)).goalSpawnCount := by
      rw [htick]
    have hg2 : (tick s i).keySpawned =
        (keySpawnCheck (doorTick (applyStep s i) i)).keySpawned := by
      rw [htick]
    have hd1 : (doorTick (applyStep s i) i).goalSpawnCount = s.goalSpawnCount := by
      rw [doorTick_eq, applyStep_eq]
    have hd2 : (doorTick (applyStep s i) i).keySpawned = s.keySpawned := by
      rw [doorTick_eq, applyStep_eq]
    rcases keySpawnCheck_cases (doorTick (applyStep s i) i) with ⟨hc1, hc2⟩ | ⟨hc1, hc2, hc3⟩
    · left
      rw [hg1, hg2, hc1, hc2, hd1, hd2]
      exact ⟨rfl, rfl⟩
    · right
      rw [hg1, hg2, hc1, hc2, hd1]
      rw [hd2] at hc3
      exact ⟨rfl, rfl, hc3⟩

theorem runTicks_spawn :
    ∀ (inps : List TickInput) (s : Session),
      (∀ i ∈ inps, i.teleporterOverlap = false) →
      ((s.keySpawned = true →
          (runTicks s inps).goalSpawnCount = s.goalSpawnCount ∧
          (runTicks s inps).keySpawned = true) ∧
        (runTicks s inps).goalSpawnCount ≤ s.goalSpawnCount + 1) := by
  intro inps
  induction inps with
  | nil => intro s _; exact ⟨fun hk => ⟨rfl, hk⟩, Nat.le_succ _⟩
  | cons i is ih =>
    intro s h
    simp only [runTicks]
    have hi : i.teleporterOverlap = false := h i (by simp)
    have his : ∀ j ∈ is, j.teleporterOverlap = false := fun j hj => h j (by simp [hj])
    obtain ⟨ih1, ih2⟩ := ih (tick s i) his
    rcases tick_spawn_cases s i hi with ⟨hc1, hc2⟩ | ⟨hc1, hc2, hc3⟩
    · refine ⟨fun hk => ?_, ?_⟩
      · obtain ⟨e1, e2⟩ := ih1 (by rw [hc2]; exact hk)
        exact ⟨e1.trans hc1, e2⟩
      · have := ih2
        rw [hc1] at this
        exact this
    · refine ⟨fun hk => ?_, ?_⟩
      · rw [hk] at hc3
        exact absurd hc3 (by simp)
      · obtain ⟨e1, _⟩ := ih1 hc2
        rw [e1, hc1]

/-- C5: over any run of ticks that stays within one scene instance (no
teleporter overlap), the block-at-goal check spawns at most one key: the
spawn count grows by at most one, and once `keySpawned` is set no tick
spawns again or clears the flag — even when the block sits within the
0.8-unit goal threshold for many consecutive ticks. -/
theorem c5_key_spawned_once (s : Session) (inps : List TickInput)
    (hte : ∀ i ∈ inps, i.teleporterOverlap = false) :
    (runTicks s inps).goalSpawnCount ≤ s.goalSpawnCount + 1 ∧
    (s.keySpawned = true →
      (runTicks s inps).goalSpawnCount = s.goalSpawnCount ∧
      (runTicks s inps).keySpawned = true) :=
  ⟨(runTicks_spawn inps s hte).2, (runTicks_spawn inps s hte).1⟩

/-- Witness for C5: two consecutive ticks with the block resting within
the goal threshold, from the freshly built scene 1. -/
theorem c5_key_spawned_once_witness :
    (runTicks freshScene1 [blockAtGoalInput, blockAtGoalInput]).goalSpawnCount ≤
        freshScene1.goalSpawnCount + 1 ∧
    (freshScene1.keySpawned = true →
      (runTicks freshScene1 [blockAtGoalInput, blockAtGoalInput]).goalSpawnCount =
          freshScene1.goalSpawnCount ∧
      (runTicks freshScene1 [blockAtGoalInput, blockAtGoalInput]).keySpawned = true) :=
  c5_key_spawned_once freshScene1 [blockAtGoalInput, blockAtGoalInput]
    (by intro i hi; fin_cases hi <;> rfl)

theorem tick_loads_of_teleporter_none (s : Session) (i : TickInput)
    (ht : s.teleporter = none) :
    (tick s i).loadsScheduled = s.loadsScheduled := by
  by_cases hw : (!s.world || s.gameOver) = true
  · simp [tick, hw]
  · have htick : tick s i =
        { teleporterCheck (keySpawnCheck (doorTick (applyStep s i) i))
            i.teleporterOverlap with
          gameOver := isGameOver (teleporterCheck
            (keySpawnCheck (doorTick (applyStep s i) i)) i.teleporterOverlap) } := by
      simp [tick, hw]
    have ht3 : (keySpawnCheck (doorTick (applyStep s i) i)).teleporter = none := by
      rw [(keySpawnCheck_pres (doorTick (applyStep s i) i)).2.2.2.2.2.1,
        doorTick_eq, applyStep_eq]
      exact ht
    rw [htick, teleporterCheck_of_none _ _ ht3]
    show (keySpawnCheck (doorTick (applyStep s i) i)).loadsScheduled = s.loadsScheduled
    rw [(keySpawnCheck_pres (doorTick (applyStep s i) i)).2.2.2.2.2.2.1,
      doorTick_eq, applyStep_eq]

/-- C8: when the player overlaps a wired teleporter on consecutive ticks
within the transition window, only one scene load is scheduled.  The first
tick marks the session over (`markSessionOver`, performed by
`onPlayerEnter` before it starts the load), schedules exactly one load,
and tears the teleporter down; a second tick — whatever its overlap —
schedules no further load before the transition completes. -/
theorem c8_single_scene_load (s : Session) (t : TeleporterEnt) (target : Nat)
    (i1 i2 : TickInput) (hw : s.world = true) (hg : s.gameOver = false)
    (ht : s.teleporter = some t) (hcb : t.onPlayerEnter = some target)
    (hp : s.player.isSome = true) (ho : i1.teleporterOverlap = true) :
    (tick s i1).loadsScheduled = s.loadsScheduled + 1 ∧
    (tick s i1).teleporter = none ∧
    (tick (tick s i1) i2).loadsScheduled = (tick s i1).loadsScheduled ∧
    (markSessionOver s).gameOver = true := by
  have hnw : (!s.world || s.gameOver) = false := by simp [hw, hg]
  have htick : tick s i1 =
      { teleporterCheck (keySpawnCheck (doorTick (applyStep s i1) i1))
          i1.teleporterOverlap with
        gameOver := isGameOver (teleporterCheck
          (keySpawnCheck (doorTick (applyStep s i1) i1)) i1.teleporterOverlap) } := by
    simp [tick, hnw]
  have hpres := keySpawnCheck_pres (doorTick (applyStep s i1) i1)
  have h3g : (keySpawnCheck (doorTick (applyStep s i1) i1)).gameOver = false := by
    rw [hpres.2.1, doorTick_eq, applyStep_eq]; exact hg
  have h3t : (keySpawnCheck (doorTick (applyStep s i1) i1)).teleporter = some t := by
    rw [hpres.2.2.2.2.2.1, doorTick_eq, applyStep_eq]; exact ht
  have h3p : (keySpawnCheck (doorTick (applyStep s i1) i1)).player.isSome = true := by
    rw [hpres.2.2.1, doorTick_eq, applyStep_eq]
    cases hpl : s.player with
    | none => rw [hpl] at hp; simp at hp
    | some p => simp
  have h3l : (keySpawnCheck (doorTick (applyStep s i1) i1)).loadsScheduled =
      s.loadsScheduled := by
    rw [hpres.2.2.2.2.2.2.1, doorTick_eq, applyStep_eq]
  have hfire := teleporterCheck_fire _ t target h3g h3t hcb h3p
  rw [ho] at htick
  rw [hfire] at htick
  have hload1 : (tick s i1).loadsScheduled = s.loadsScheduled + 1 := by
    rw [htick]
    show (loadSceneStart target (markSessionOver
      (keySpawnCheck (doorTick (applyStep s i1) i1)))).loadsScheduled =
        s.loadsScheduled + 1
    simp [loadSceneStart, clearScene, markSessionOver, h3l]
  have htele : (tick s i1).teleporter = none := by
    rw [htick]
    show (loadSceneStart target (markSessionOver
      (keySpawnCheck (doorTick (applyStep s i1) i1)))).teleporter = none
    simp [loadSceneStart, clearScene, markSessionOver]
  exact ⟨hload1, htele, tick_loads_of_teleporter_none (tick s i1) i2 htele, rfl⟩

/-- Witness for C8: the freshly built scene 1 (teleporter wired to scene
2) with the player overlapping the teleporter on two consecutive ticks. -/
theorem c8_single_scene_load_witness :
    (tick freshScene1 teleportInput).loadsScheduled =
        freshScene1.loadsScheduled + 1 ∧
    (tick freshScene1 teleportInput).teleporter = none ∧
    (tick (tick freshScene1 teleportInput) teleportInput).loadsScheduled =
        (tick freshScene1 teleportInput).loadsScheduled ∧
    (markSessionOver freshScene1).gameOver = true :=
  c8_single_scene_load freshScene1 { onPlayerEnter := some 2 } 2
    teleportInput teleportInput rfl rfl rfl rfl rfl rfl

/-- C9 (bug demonstration): saving a session that carries one action
record and then loading the snapshot does NOT round-trip the action
history.  `loadGame` assigns `actionHistory` from the snapshot, but then
`loadScene` runs `clearScene`, which resets `actionHistory` to `[]`, so
the restored history is empty while the snapshot holds one record.
`moveCount` (untouched by `clearScene`) does round-trip. -/
theorem c9_load_drops_action_history :
    ∃ d, saveGame historySession = some d ∧
      d.actionHistory.length = 1 ∧
      (applyLoadedData d freshScene1).actionHistory = [] ∧
      (applyLoadedData d freshScene1).actionHistory.length ≠ d.actionHistory.length ∧
      (applyLoadedData d freshScene1).moveCount = historySession.moveCount ∧
      createLoadPath (SlotContent.parsed d) freshScene1 = applyLoadedData d freshScene1 := by
  exact ⟨_, rfl, rfl, rfl, by decide, rfl, rfl⟩
